import Mathlib

/-!
Shallow embedding of the Mermaid renderer of
`src/core/framework/visualization/mermaid_renderer.py`, together with the
graph data model it consumes (`framework.graph.edge`, `framework.graph.node`),
and proofs of the specified rendering properties.
-/

/-- The double-quote character (code point 34). -/
def dQuote : Char := Char.ofNat 34

/-- The single-quote character (code point 39). -/
def sQuote : Char := Char.ofNat 39

/-- Modelled from the spec: the closed `EdgeCondition` variant set of
`framework/graph/edge.py` (the module itself is not among the provided source
files; §3 of the spec fixes its four variants, named as the renderer uses
them: `ON_SUCCESS`, `ON_FAILURE`, `CONDITIONAL`, `LLM_DECIDE`). -/
inductive EdgeCondition where
  | ON_SUCCESS
  | ON_FAILURE
  | CONDITIONAL
  | LLM_DECIDE
deriving DecidableEq, Repr

/-- Modelled from the spec: `NodeSpec` of `framework/graph/node.py` (§3 of the
spec; field names as used by the renderer and its tests).  The router branch
table `routes` is an ordered mapping (Python dict, insertion-ordered), so it
is embedded as an association list of (condition label, target id) pairs. -/
structure NodeSpec where
  id : String
  name : String
  description : String
  node_type : String
  input_keys : List String
  output_keys : List String
  routes : List (String × String)
deriving DecidableEq, Repr

/-- Modelled from the spec: `EdgeSpec` of `framework/graph/edge.py` (§3 of the
spec).  `condition_expr` and `description` are optional strings (`None` in
Python becomes `none`). -/
structure EdgeSpec where
  id : String
  source : String
  target : String
  condition : EdgeCondition
  condition_expr : Option String
  description : Option String
deriving DecidableEq, Repr

/-- Modelled from the spec: `GraphSpec` of `framework/graph/edge.py` (§3 of
the spec). -/
structure GraphSpec where
  id : String
  goal_id : String
  entry_node : String
  terminal_nodes : List String
  pause_nodes : List String
  nodes : List NodeSpec
  edges : List EdgeSpec
deriving DecidableEq, Repr

/-- The renderer's per-instance configuration: the flowchart direction fixed
at construction (`MermaidRenderer.__init__`, default "TD").  The style table
`_styles` is built from the same literals on every construction, so it is
embedded as the fixed function `_styles` below. -/
structure MermaidRenderer where
  direction : String
deriving DecidableEq, Repr

/-- The style table `self._styles` of `MermaidRenderer.__init__`: a fixed
mapping from the five literal keys to literal style strings. -/
def _styles (key : String) : String :=
  if key = "node" then "fill:#fff,stroke:#333,stroke-width:1px,color:#333"
  else if key = "entry" then "fill:#e3f2fd,stroke:#2196f3,stroke-width:2px,color:#0d47a1"
  else if key = "terminal" then "fill:#fbe9e7,stroke:#ff5722,stroke-width:2px,color:#bf360c"
  else if key = "pause" then "fill:#fff8e1,stroke:#ffc107,stroke-width:2px,stroke-dasharray: 5 5,color:#ff6f00"
  else if key = "router" then "fill:#f3e5f5,stroke:#9c27b0,stroke-width:1px,shape:rhombus,color:#4a148c"
  else ""

/-- Python's `s.replace(old, new)` for the one-character pattern used at
mermaid_renderer.py:100 (`node.name.replace(CHR34, CHR39)`): replacing every
occurrence of a single character by a single character is exactly a
character-wise substitution over the string's code points. -/
def replaceQuotes (s : String) : String :=
  ⟨s.data.map (fun c => if c = dQuote then sQuote else c)⟩

/-- `MermaidRenderer._render_node` (mermaid_renderer.py:74-106): choose shape
delimiters and style class by the code's if/elif precedence, sanitize the
label, and assemble the declaration line. -/
def _render_node (node : NodeSpec) (graph : GraphSpec) : String :=
  let sc : String × String × String :=
    if node.id = graph.entry_node then ("((", "))", "entry")
    else if node.id ∈ graph.terminal_nodes then ("([", "])", "terminal")
    else if node.id ∈ graph.pause_nodes then ("\x7b\x7b", "\x7d\x7d", "pause")
    else if node.node_type = "router" then ("\x7b", "\x7d", "router")
    else ("[", "]", "processing")
  let label := replaceQuotes node.name
  "    " ++ node.id ++ sc.1 ++ "\"" ++ label ++ "\"" ++ sc.2.1 ++ ":::" ++ sc.2.2

/-- Python's truthiness fallback `opt or dflt` for an optional string: `None`
and the empty string are falsy, any other string is returned unchanged. -/
def orTruthy (opt : Option String) (dflt : String) : String :=
  match opt with
  | none => dflt
  | some s => if s = "" then dflt else s

/-- Python's slice `s[:n]`, which cuts by code points. -/
def strTake (s : String) (n : Nat) : String :=
  ⟨s.data.take n⟩

/-- The displayed form of a `CONDITIONAL` edge's condition expression
(mermaid_renderer.py:120-123): `edge.condition_expr or "?"`, then truncation
of expressions longer than 20 characters to their first 17 characters plus
`...`. -/
def conditional_expr_display (opt : Option String) : String :=
  let expr := orTruthy opt "?"
  if expr.length > 20 then strTake expr 17 ++ "..." else expr

/-- The candidate bracket-style label computed from `edge.description` at
mermaid_renderer.py:128-129 (`label = CHR124 + edge.description + CHR124`
when the description is truthy). -/
def edge_label (edge : EdgeSpec) : String :=
  match edge.description with
  | none => ""
  | some d => if d = "" then "" else "|" ++ d ++ "|"

/-- `MermaidRenderer._render_edge` (mermaid_renderer.py:108-131): select the
arrow token by condition variant (with the `or` fallback and 17-character
truncation for `CONDITIONAL`), compute the description label (which the
returned line does not use), and assemble `source arrow target`. -/
def _render_edge (edge : EdgeSpec) : String :=
  let arrow : String :=
    match edge.condition with
    | EdgeCondition.ON_SUCCESS => "-->"
    | EdgeCondition.ON_FAILURE => "-.->|failed|"
    | EdgeCondition.CONDITIONAL =>
        "-- \"" ++ conditional_expr_display edge.condition_expr ++ "\" -->"
    | EdgeCondition.LLM_DECIDE => "-.->|llm decision|"
  let label := edge_label edge
  "    " ++ edge.source ++ " " ++ arrow ++ " " ++ edge.target

/-- The synthetic route line for branch `ct` of router node `node`
(mermaid_renderer.py:70): the f-string
`    ID -- CHR34 condition CHR34 --> target`. -/
def routeLine (node : NodeSpec) (ct : String × String) : String :=
  "    " ++ node.id ++ " -- \"" ++ ct.1 ++ "\" --> " ++ ct.2

/-- `MermaidRenderer.render` (mermaid_renderer.py:36-72) up to the final
`join`: the `lines` list as the code builds it — header, the five classDef
lines, a blank line, one node line per node, a blank line, one edge line per
edge, then the synthetic router route lines. -/
def renderLines (r : MermaidRenderer) (graph : GraphSpec) : List String :=
  let lines := ["graph " ++ r.direction]
  let lines := lines ++ ["    classDef processing " ++ _styles "node" ++ ";"]
  let lines := lines ++ ["    classDef entry " ++ _styles "entry" ++ ";"]
  let lines := lines ++ ["    classDef terminal " ++ _styles "terminal" ++ ";"]
  let lines := lines ++ ["    classDef pause " ++ _styles "pause" ++ ";"]
  let lines := lines ++ ["    classDef router " ++ _styles "router" ++ ";"]
  let lines := lines ++ [""]
  let lines := lines ++ graph.nodes.map (fun node => _render_node node graph)
  let lines := lines ++ [""]
  let lines := lines ++ graph.edges.map _render_edge
  let lines := lines ++ (graph.nodes.map (fun node =>
    if node.node_type = "router" ∧ node.routes ≠ [] then
      node.routes.map (routeLine node)
    else [])).flatten
  lines

/-- Python's `sep.join(lines)` for `sep = LF`, as used at
mermaid_renderer.py:72. -/
def joinLines : List String → String
  | [] => ""
  | [a] => a
  | a :: b :: t => a ++ "\n" ++ joinLines (b :: t)

/-- `MermaidRenderer.render`: the newline-join of the assembled lines. -/
def render (r : MermaidRenderer) (graph : GraphSpec) : String :=
  joinLines (renderLines r graph)

/-- A call `renderer.render(graph)` with its post-call states: the method body
only reads `self.direction`, `self._styles` and the graph's fields while
appending to a local list, so the renderer and the graph leave the call
exactly as they entered it. -/
def renderCall (r : MermaidRenderer) (graph : GraphSpec) :
    String × MermaidRenderer × GraphSpec :=
  (render r graph, r, graph)

lemma renderLines_eq (r : MermaidRenderer) (g : GraphSpec) :
    renderLines r g =
      ["graph " ++ r.direction,
       "    classDef processing " ++ _styles "node" ++ ";",
       "    classDef entry " ++ _styles "entry" ++ ";",
       "    classDef terminal " ++ _styles "terminal" ++ ";",
       "    classDef pause " ++ _styles "pause" ++ ";",
       "    classDef router " ++ _styles "router" ++ ";",
       ""]
      ++ g.nodes.map (fun node => _render_node node g)
      ++ [""]
      ++ g.edges.map _render_edge
      ++ (g.nodes.map (fun node =>
            if node.node_type = "router" ∧ node.routes ≠ [] then
              node.routes.map (routeLine node)
            else [])).flatten := by
  simp [renderLines, routeLine]

lemma route_block_guard_free (n : NodeSpec) :
    (if n.node_type = "router" ∧ n.routes ≠ [] then
       n.routes.map (routeLine n)
     else [])
    = (if n.node_type = "router" then n.routes.map (routeLine n) else []) := by
  by_cases h : n.node_type = "router" <;> by_cases h2 : n.routes = [] <;>
    simp [h, h2]

/-- C1: for every node, `_render_node` assigns shape delimiters and style
class by the precedence entry > terminal > pause > router-role > processing,
first match wins.  The first conjunct needs nothing but the entry test, so a
node that is also terminal, and a router node that is the entry node, both
render as entry. -/
theorem node_shape_class_precedence (node : NodeSpec) (graph : GraphSpec) :
    (node.id = graph.entry_node →
      _render_node node graph =
        "    " ++ node.id ++ "((\"" ++ replaceQuotes node.name ++ "\")):::entry") ∧
    (node.id ≠ graph.entry_node → node.id ∈ graph.terminal_nodes →
      _render_node node graph =
        "    " ++ node.id ++ "([\"" ++ replaceQuotes node.name ++ "\"]):::terminal") ∧
    (node.id ≠ graph.entry_node → node.id ∉ graph.terminal_nodes →
      node.id ∈ graph.pause_nodes →
      _render_node node graph =
        "    " ++ node.id ++ "\x7b\x7b\"" ++ replaceQuotes node.name ++ "\"\x7d\x7d:::pause") ∧
    (node.id ≠ graph.entry_node → node.id ∉ graph.terminal_nodes →
      node.id ∉ graph.pause_nodes → node.node_type = "router" →
      _render_node node graph =
        "    " ++ node.id ++ "\x7b\"" ++ replaceQuotes node.name ++ "\"\x7d:::router") ∧
    (node.id ≠ graph.entry_node → node.id ∉ graph.terminal_nodes →
      node.id ∉ graph.pause_nodes → node.node_type ≠ "router" →
      _render_node node graph =
        "    " ++ node.id ++ "[\"" ++ replaceQuotes node.name ++ "\"]:::processing") := by
  refine ⟨?_, ?_, ?_, ?_, ?_⟩
  · intro h1
    simp [_render_node, h1, String.append_assoc]
  · intro h1 h2
    simp [_render_node, h1, h2, String.append_assoc]
  · intro h1 h2 h3
    simp [_render_node, h1, h2, h3, String.append_assoc]
  · intro h1 h2 h3 h4
    simp [_render_node, h1, h2, h3, h4, String.append_assoc]
  · intro h1 h2 h3 h4
    simp [_render_node, h1, h2, h3, h4, String.append_assoc]

/-- A router node that is simultaneously the entry node and a terminal node. -/
def nodeEntryRouter : NodeSpec := ⟨"s", "S", "", "router", [], [], [("k", "t")]⟩

/-- A graph whose entry node is also terminal and router-typed. -/
def graphEntryRouter : GraphSpec :=
  ⟨"gw", "goal", "s", ["s"], [], [nodeEntryRouter], []⟩

/-- C1 witness: a node that is at once entry, terminal and router-typed
renders as entry. -/
theorem node_shape_class_precedence_witness :
    _render_node nodeEntryRouter graphEntryRouter = "    s((\"S\")):::entry" :=
  Eq.trans ((node_shape_class_precedence nodeEntryRouter graphEntryRouter).1 rfl)
    (by decide)

/-- C2: the emitted edge line's arrow token and inline label are fixed by the
condition variant: `ON_SUCCESS` a plain unlabeled arrow, `ON_FAILURE` a
dashed arrow labeled `failed`, `LLM_DECIDE` a dashed arrow labeled
`llm decision`, and `CONDITIONAL` a solid arrow labeled with the edge's
condition expression (shown here for a present, non-empty expression within
the 20-character display limit; the fallback and truncation cases are settled
separately). -/
theorem edge_arrow_label_by_condition (e : EdgeSpec) :
    (e.condition = EdgeCondition.ON_SUCCESS →
      _render_edge e = "    " ++ e.source ++ " --> " ++ e.target) ∧
    (e.condition = EdgeCondition.ON_FAILURE →
      _render_edge e = "    " ++ e.source ++ " -.->|failed| " ++ e.target) ∧
    (e.condition = EdgeCondition.LLM_DECIDE →
      _render_edge e = "    " ++ e.source ++ " -.->|llm decision| " ++ e.target) ∧
    (e.condition = EdgeCondition.CONDITIONAL →
      _render_edge e =
        "    " ++ e.source ++ " "
          ++ ("-- \"" ++ conditional_expr_display e.condition_expr ++ "\" -->")
          ++ " " ++ e.target) ∧
    (∀ s : String, e.condition = EdgeCondition.CONDITIONAL →
      e.condition_expr = some s → s ≠ "" → s.length ≤ 20 →
      _render_edge e =
        "    " ++ e.source ++ " " ++ ("-- \"" ++ s ++ "\" -->") ++ " " ++ e.target) := by
  refine ⟨?_, ?_, ?_, ?_, ?_⟩
  · intro h
    simp [_render_edge, h, String.append_assoc]
  · intro h
    simp [_render_edge, h, String.append_assoc]
  · intro h
    simp [_render_edge, h, String.append_assoc]
  · intro h
    simp [_render_edge, h, String.append_assoc]
  · intro s hc he hs hlen
    have hgt : ¬ s.length > 20 := by omega
    simp [_render_edge, conditional_expr_display, hc, he, orTruthy, hs, hgt,
      String.append_assoc]

/-- C2 witness: the four condition variants at concrete edges. -/
theorem edge_arrow_label_by_condition_witness :
    _render_edge ⟨"e1", "a", "b", EdgeCondition.ON_SUCCESS, none, none⟩ =
      "    a --> b" ∧
    _render_edge ⟨"e2", "a", "b", EdgeCondition.ON_FAILURE, none, none⟩ =
      "    a -.->|failed| b" ∧
    _render_edge ⟨"e3", "a", "b", EdgeCondition.LLM_DECIDE, none, none⟩ =
      "    a -.->|llm decision| b" ∧
    _render_edge ⟨"e4", "a", "b", EdgeCondition.CONDITIONAL, some "x > 1", none⟩ =
      "    a -- \"x > 1\" --> b" :=
  ⟨Eq.trans ((edge_arrow_label_by_condition _).1 rfl) (by decide),
   Eq.trans ((edge_arrow_label_by_condition _).2.1 rfl) (by decide),
   Eq.trans ((edge_arrow_label_by_condition _).2.2.1 rfl) (by decide),
   Eq.trans
     ((edge_arrow_label_by_condition _).2.2.2.2 "x > 1" rfl rfl (by decide) (by decide))
     (by decide)⟩

/-- C10: a `CONDITIONAL` edge whose expression is absent or empty renders
with the literal fallback label `?`: Python's `edge.condition_expr or "?"`
treats both `None` and the empty string as falsy. -/
theorem conditional_missing_expr_question_mark (e : EdgeSpec)
    (hc : e.condition = EdgeCondition.CONDITIONAL)
    (he : e.condition_expr = none ∨ e.condition_expr = some "") :
    _render_edge e =
      "    " ++ e.source ++ " " ++ ("-- \"" ++ "?" ++ "\" -->") ++ " " ++ e.target := by
  have h20 : ¬ ("?" : String).length > 20 := by decide
  rcases he with he | he <;>
    simp [_render_edge, conditional_expr_display, hc, he, orTruthy, h20,
      String.append_assoc]

/-- C10 witness: the fallback at concrete edges with `None` and with the
empty string. -/
theorem conditional_missing_expr_question_mark_witness :
    _render_edge ⟨"e5", "a", "b", EdgeCondition.CONDITIONAL, none, none⟩ =
      "    a -- \"?\" --> b" ∧
    _render_edge ⟨"e6", "a", "b", EdgeCondition.CONDITIONAL, some "", none⟩ =
      "    a -- \"?\" --> b" :=
  ⟨Eq.trans (conditional_missing_expr_question_mark _ rfl (Or.inl rfl)) (by decide),
   Eq.trans (conditional_missing_expr_question_mark _ rfl (Or.inr rfl)) (by decide)⟩

/-- A `CONDITIONAL` edge carrying the empty string as its expression. -/
def edgeEmptyExpr : EdgeSpec := ⟨"e0", "a", "b", EdgeCondition.CONDITIONAL, some "", none⟩

/-- C5 counterexample: the empty string is an expression of 20 characters or
fewer, yet it is not displayed unchanged — the code's `or "?"` fallback
replaces it with `?` before the length test ever runs. -/
theorem conditional_short_expr_not_always_unchanged :
    _render_edge edgeEmptyExpr = "    a -- \"?\" --> b" ∧
    _render_edge edgeEmptyExpr ≠ "    a -- \"\" --> b" := by
  exact ⟨by decide, by decide⟩

/-- C5 (amended): for a `CONDITIONAL` edge with a present, non-empty
expression, an expression strictly longer than 20 characters is displayed as
its first 17 characters followed by the three-character marker `...`, and an
expression of at most 20 characters is displayed unchanged. -/
theorem conditional_expr_truncation (e : EdgeSpec) (s : String)
    (hc : e.condition = EdgeCondition.CONDITIONAL)
    (he : e.condition_expr = some s) (hs : s ≠ "") :
    (20 < s.length →
      _render_edge e =
        "    " ++ e.source ++ " " ++ ("-- \"" ++ (strTake s 17 ++ "...") ++ "\" -->")
          ++ " " ++ e.target) ∧
    (s.length ≤ 20 →
      _render_edge e =
        "    " ++ e.source ++ " " ++ ("-- \"" ++ s ++ "\" -->") ++ " " ++ e.target) := by
  constructor
  · intro hlen
    have hgt : s.length > 20 := hlen
    simp [_render_edge, conditional_expr_display, hc, he, orTruthy, hs, hgt,
      String.append_assoc]
  · intro hlen
    have hgt : ¬ s.length > 20 := by omega
    simp [_render_edge, conditional_expr_display, hc, he, orTruthy, hs, hgt,
      String.append_assoc]

/-- C5 witness: a 25-character expression renders as its first 17 characters
plus `...`; a 20-character expression renders unchanged. -/
theorem conditional_expr_truncation_witness :
    _render_edge
      ⟨"e7", "a", "b", EdgeCondition.CONDITIONAL, some "abcdefghijklmnopqrstuvwxy", none⟩ =
      "    a -- \"abcdefghijklmnopq...\" --> b" ∧
    _render_edge
      ⟨"e8", "a", "b", EdgeCondition.CONDITIONAL, some "abcdefghijklmnopqrst", none⟩ =
      "    a -- \"abcdefghijklmnopqrst\" --> b" :=
  ⟨Eq.trans
     ((conditional_expr_truncation _ "abcdefghijklmnopqrstuvwxy" rfl rfl (by decide)).1
       (by decide))
     (by decide),
   Eq.trans
     ((conditional_expr_truncation _ "abcdefghijklmnopqrst" rfl rfl (by decide)).2
       (by decide))
     (by decide)⟩

/-- C6: the optional description is computed into the candidate bracket-style
label `edge_label` during formatting, but the emitted line never contains it:
two edges differing only in their description render identically, and the
line always has the shape `source <arrow> target`. -/
theorem edge_description_never_emitted (e : EdgeSpec) (d1 d2 : Option String)
    (s : String) (hs : s ≠ "") :
    _render_edge
        ⟨e.id, e.source, e.target, e.condition, e.condition_expr, d1⟩ =
      _render_edge
        ⟨e.id, e.source, e.target, e.condition, e.condition_expr, d2⟩ ∧
    edge_label ⟨e.id, e.source, e.target, e.condition, e.condition_expr, some s⟩ =
      "|" ++ s ++ "|" ∧
    ∃ arrow : String,
      _render_edge e = "    " ++ e.source ++ " " ++ arrow ++ " " ++ e.target := by
  refine ⟨rfl, by simp [edge_label, hs], ⟨_, rfl⟩⟩

/-- C6 witness: a labeled and an unlabeled description yield the same line,
and the candidate label is computed in bracket style. -/
theorem edge_description_never_emitted_witness :
    _render_edge ⟨"e9", "a", "b", EdgeCondition.ON_SUCCESS, none, some "note"⟩ =
      _render_edge ⟨"e9", "a", "b", EdgeCondition.ON_SUCCESS, none, none⟩ ∧
    edge_label ⟨"e9", "a", "b", EdgeCondition.ON_SUCCESS, none, some "note"⟩ =
      "|" ++ "note" ++ "|" :=
  ⟨(edge_description_never_emitted
      ⟨"e9", "a", "b", EdgeCondition.ON_SUCCESS, none, none⟩
      (some "note") none "note" (by decide)).1,
   (edge_description_never_emitted
      ⟨"e9", "a", "b", EdgeCondition.ON_SUCCESS, none, none⟩
      (some "note") none "note" (by decide)).2.1⟩

/-- C7: the node declaration embeds the display name, with every
double-quote replaced by a single-quote, in double quotes inside the shape
delimiters; character for character, the sanitized label agrees with the
display name except that double quotes become single quotes — no other
character is altered (in particular the label has exactly the same number of
characters). -/
theorem node_label_quote_substitution (node : NodeSpec) (graph : GraphSpec) :
    (∃ so scl cls : String,
      _render_node node graph =
        "    " ++ node.id ++ so ++ "\"" ++ replaceQuotes node.name ++ "\"" ++ scl
          ++ ":::" ++ cls) ∧
    List.Forall₂ (fun a b => b = if a = dQuote then sQuote else a)
      node.name.data (replaceQuotes node.name).data := by
  constructor
  · by_cases h1 : node.id = graph.entry_node
    · exact ⟨"((", "))", "entry", by simp [_render_node, h1]⟩
    · by_cases h2 : node.id ∈ graph.terminal_nodes
      · exact ⟨"([", "])", "terminal", by simp [_render_node, h1, h2]⟩
      · by_cases h3 : node.id ∈ graph.pause_nodes
        · exact ⟨"\x7b\x7b", "\x7d\x7d", "pause", by simp [_render_node, h1, h2, h3]⟩
        · by_cases h4 : node.node_type = "router"
          · exact ⟨"\x7b", "\x7d", "router", by simp [_render_node, h1, h2, h3, h4]⟩
          · exact ⟨"[", "]", "processing", by simp [_render_node, h1, h2, h3, h4]⟩
  · have hdata : (replaceQuotes node.name).data =
        node.name.data.map (fun c => if c = dQuote then sQuote else c) := rfl
    rw [hdata, List.forall₂_map_right_iff]
    exact List.forall₂_same.mpr (fun x _ => rfl)

/-- C9: the renderer is deterministic and mutation-free — a call returns the
renderer and the graph exactly as they entered (the body only appends to a
local list), and a second call on the post-call states returns a
byte-identical string. -/
theorem render_deterministic_and_pure (r : MermaidRenderer) (g : GraphSpec) :
    (renderCall r g).2.1 = r ∧
    (renderCall r g).2.2 = g ∧
    (renderCall (renderCall r g).2.1 (renderCall r g).2.2).1 = (renderCall r g).1 :=
  ⟨rfl, rfl, rfl⟩

/-- C4: the output is the newline-join of, in order: the header line
`graph <direction>`, the five classDef lines in the fixed
processing/entry/terminal/pause/router order (independent of the graph), a
blank line, one node line per node in graph node order, a blank line, one
edge line per edge in graph edge order (each of shape
`source <arrow> target`), and finally the synthetic route lines. -/
theorem render_output_structure (r : MermaidRenderer) (g : GraphSpec) :
    render r g = joinLines (renderLines r g) ∧
    renderLines r g =
      ["graph " ++ r.direction,
       "    classDef processing " ++ _styles "node" ++ ";",
       "    classDef entry " ++ _styles "entry" ++ ";",
       "    classDef terminal " ++ _styles "terminal" ++ ";",
       "    classDef pause " ++ _styles "pause" ++ ";",
       "    classDef router " ++ _styles "router" ++ ";",
       ""]
      ++ g.nodes.map (fun node => _render_node node g)
      ++ [""]
      ++ g.edges.map _render_edge
      ++ (g.nodes.map (fun node =>
            if node.node_type = "router" then node.routes.map (routeLine node)
            else [])).flatten ∧
    ∀ e : EdgeSpec, ∃ arrow : String,
      _render_edge e = "    " ++ e.source ++ " " ++ arrow ++ " " ++ e.target := by
  refine ⟨rfl, ?_, fun e => ⟨_, rfl⟩⟩
  rw [renderLines_eq]
  simp only [route_block_guard_free]

/-- C3: every synthetic route line comes after all declared-edge lines (the
edge lines are a suffix of the part of the output that precedes the route
block), and the route block is exactly one `routeLine` — of the shape
`source -- "key" --> target` — per branch of each router node, nodes in
graph node order and branches in insertion order, with no deduplication
against the declared edges. -/
theorem router_route_synthesis (r : MermaidRenderer) (g : GraphSpec) :
    ∃ pre : List String,
      g.edges.map _render_edge <:+ pre ∧
      renderLines r g =
        pre ++ (g.nodes.map (fun node =>
          if node.node_type = "router" then node.routes.map (routeLine node)
          else [])).flatten ∧
      ∀ (n : NodeSpec) (ct : String × String),
        routeLine n ct = "    " ++ n.id ++ " -- \"" ++ ct.1 ++ "\" --> " ++ ct.2 := by
  refine ⟨["graph " ++ r.direction,
           "    classDef processing " ++ _styles "node" ++ ";",
           "    classDef entry " ++ _styles "entry" ++ ";",
           "    classDef terminal " ++ _styles "terminal" ++ ";",
           "    classDef pause " ++ _styles "pause" ++ ";",
           "    classDef router " ++ _styles "router" ++ ";",
           ""]
          ++ g.nodes.map (fun node => _render_node node g)
          ++ [""]
          ++ g.edges.map _render_edge, ?_, ?_, fun n ct => rfl⟩
  · exact ⟨_, rfl⟩
  · rw [renderLines_eq]
    simp only [route_block_guard_free, List.append_assoc]

lemma infix_of_mem_joinLines {x : String} {l : List String} (h : x ∈ l) :
    x.data <:+: (joinLines l).data := by
  induction l with
  | nil => cases h
  | cons a t ih =>
    cases t with
    | nil =>
      have hx : x = a := by simpa using h
      subst hx
      exact List.infix_refl _
    | cons b t2 =>
      rcases List.mem_cons.mp h with hx | hx
      · subst hx
        exact ⟨[], ("\n".data ++ (joinLines (b :: t2)).data),
          by simp [joinLines, String.data_append]⟩
      · exact (ih hx).trans
          ⟨a.data ++ "\n".data, [], by simp [joinLines, String.data_append]⟩

lemma edge_line_mem_renderLines {r : MermaidRenderer} {g : GraphSpec}
    {e : EdgeSpec} (he : e ∈ g.edges) : _render_edge e ∈ renderLines r g := by
  rw [renderLines_eq]
  simp only [List.mem_append, List.mem_map]
  exact Or.inl (Or.inr ⟨e, he, rfl⟩)

lemma route_line_mem_renderLines {r : MermaidRenderer} {g : GraphSpec}
    {n : NodeSpec} {ct : String × String} (hn : n ∈ g.nodes)
    (ht : n.node_type = "router") (hct : ct ∈ n.routes) :
    routeLine n ct ∈ renderLines r g := by
  rw [renderLines_eq]
  simp only [List.mem_append, List.mem_flatten, List.mem_map]
  have hne : n.routes ≠ [] := by
    intro h0
    rw [h0] at hct
    cases hct
  refine Or.inr ⟨n.routes.map (routeLine n), ⟨n, hn, ?_⟩, List.mem_map_of_mem _ hct⟩
  simp [ht, hne]

lemma source_infix_edge_line (e : EdgeSpec) :
    e.source.data <:+: (_render_edge e).data := by
  obtain ⟨arrow, ha⟩ : ∃ arrow : String,
      _render_edge e = "    " ++ e.source ++ " " ++ arrow ++ " " ++ e.target :=
    ⟨_, rfl⟩
  exact ⟨"    ".data, " ".data ++ arrow.data ++ " ".data ++ e.target.data,
    by simp [ha, String.data_append]⟩

lemma target_infix_edge_line (e : EdgeSpec) :
    e.target.data <:+: (_render_edge e).data := by
  obtain ⟨arrow, ha⟩ : ∃ arrow : String,
      _render_edge e = "    " ++ e.source ++ " " ++ arrow ++ " " ++ e.target :=
    ⟨_, rfl⟩
  exact ⟨"    ".data ++ e.source.data ++ " ".data ++ arrow.data ++ " ".data, [],
    by simp [ha, String.data_append]⟩

lemma target_infix_route_line (n : NodeSpec) (ct : String × String) :
    ct.2.data <:+: (routeLine n ct).data :=
  ⟨"    ".data ++ n.id.data ++ " -- \"".data ++ ct.1.data ++ "\" --> ".data, [],
    by simp [routeLine, String.data_append]⟩

/-- C8 (amended): rendering is a total function — it succeeds on every graph
with no reference validation of any kind (no hypothesis below relates the
edge endpoints, the branch targets, or the entry/terminal/pause identifiers
to the node list).  Every declared edge's source and target identifier and
every router branch target appears verbatim in the output text.  (A dangling
entry, terminal or pause identifier also causes no failure, but it is only
compared against node identifiers and never printed, so it does not itself
appear in the output — see the counterexample.) -/
theorem render_no_reference_validation (r : MermaidRenderer) (g : GraphSpec) :
    (∀ e ∈ g.edges,
      e.source.data <:+: (render r g).data ∧
      e.target.data <:+: (render r g).data) ∧
    (∀ n ∈ g.nodes, n.node_type = "router" →
      ∀ ct ∈ n.routes, ct.2.data <:+: (render r g).data) := by
  constructor
  · intro e he
    have hj := infix_of_mem_joinLines (edge_line_mem_renderLines (r := r) he)
    exact ⟨(source_infix_edge_line e).trans hj, (target_infix_edge_line e).trans hj⟩
  · intro n hn ht ct hct
    have hj := infix_of_mem_joinLines (route_line_mem_renderLines (r := r) hn ht hct)
    exact (target_infix_route_line n ct).trans hj

/-- A graph whose entry node, terminal node, edge endpoints and branch target
all reference nodes that do not exist. -/
def danglingGraph : GraphSpec :=
  ⟨"dg", "goal", "missing_entry", ["missing_term"], [],
   [⟨"r1", "R", "", "router", [], [], [("k", "nowhere")]⟩],
   [⟨"ed", "phantom_src", "phantom_tgt", EdgeCondition.ON_SUCCESS, none, none⟩]⟩

/-- C8 witness: the thoroughly dangling graph renders, and the unknown edge
source and unknown branch target appear verbatim in the output. -/
theorem render_no_reference_validation_witness :
    ("phantom_src" : String).data <:+: (render ⟨"TD"⟩ danglingGraph).data ∧
    ("nowhere" : String).data <:+: (render ⟨"TD"⟩ danglingGraph).data :=
  ⟨((render_no_reference_validation ⟨"TD"⟩ danglingGraph).1
      ⟨"ed", "phantom_src", "phantom_tgt", EdgeCondition.ON_SUCCESS, none, none⟩
      (by decide)).1,
   (render_no_reference_validation ⟨"TD"⟩ danglingGraph).2
      ⟨"r1", "R", "", "router", [], [], [("k", "nowhere")]⟩
      (by decide) rfl ("k", "nowhere") (by decide)⟩

/-- A graph whose entry identifier `ghost` matches no node. -/
def ghostGraph : GraphSpec :=
  ⟨"g", "goal", "ghost", [], [], [⟨"a", "A", "", "function", [], [], []⟩], []⟩

set_option maxRecDepth 100000 in
/-- C8 counterexample: a graph with a dangling entry identifier still renders
(its only node gets the default processing styling), but the dangling entry
identifier `ghost` does not appear anywhere in the output text, contradicting
the claim that dangling identifiers appear verbatim. -/
theorem dangling_entry_id_absent_from_output :
    ("    a[\"A\"]:::processing" : String).data <:+: (render ⟨"TD"⟩ ghostGraph).data ∧
    ¬ ("ghost" : String).data <:+: (render ⟨"TD"⟩ ghostGraph).data := by
  constructor
  · decide
  · decide
